import Mathlib

/-!
Verification of the temporal churn-prediction pipeline.

Shallow embedding of the core of the repository:
`churn_predictor.py` (class `ChurnPredictor`: window arithmetic,
per-customer feature extraction, labeling, multi-snapshot assembly) and
`app/ml.py` (`_align_columns`, `predict_churn`) of the integrated backend.

Modelling conventions:
* timestamps and dates are integers counting whole days (the code only ever
  shifts datetimes by `timedelta(days=...)`, and `.dt.date` at day
  granularity is the identity);
* Python `float` arithmetic is modelled by `ℚ` (exact field arithmetic);
* Python `//` on ints is floor division, modelled by `Int.fdiv`;
* pandas boolean-mask filtering is `List.filter`;
* `Series.unique` (first-occurrence order) is `pdUnique` below;
* a raised exception is the `Except.error` branch of an `Except` result.
-/

namespace Churn

/-- The event types recognized by `_extract_customer_features`. -/
inductive EventType where
  | purchase
  | view
  | add_to_cart
  | refund
  | support_ticket
  | added_to_wishlist
  | removed_from_cart
  | removed_from_wishlist
  | cart_quantity_updated
  | other
  deriving DecidableEq, Repr

/-- One row of the raw event table
`[timestamp, customer_id, event_type, value, product_category]`. -/
structure Event where
  customer_id : String
  event_type : EventType
  timestamp : ℤ
  value : ℚ
  product_category : String
  deriving DecidableEq, Repr

/-- The `TemporalConfig` dataclass (fields are Python `int`s). -/
structure TemporalConfig where
  observation_days : ℤ := 90
  gap_days : ℤ := 10
  label_days : ℤ := 45
  step_days : ℤ := 14
  deriving DecidableEq, Repr

/-- `observation_start = cutoff_date - timedelta(days=observation_days)`. -/
def observationStart (cfg : TemporalConfig) (cutoff : ℤ) : ℤ :=
  cutoff - cfg.observation_days

/-- `observation_end = cutoff_date`. -/
def observationEnd (_cfg : TemporalConfig) (cutoff : ℤ) : ℤ :=
  cutoff

/-- `label_start = cutoff_date + timedelta(days=gap_days)`. -/
def labelStart (cfg : TemporalConfig) (cutoff : ℤ) : ℤ :=
  cutoff + cfg.gap_days

/-- `label_end = label_start + timedelta(days=label_days)`. -/
def labelEnd (cfg : TemporalConfig) (cutoff : ℤ) : ℤ :=
  labelStart cfg cutoff + cfg.label_days

/-- The half-open timestamp filter `(ts >= lo) & (ts < hi)` used for both
the observation slice and the label slice of `build_training_table`. -/
def eventsInWindow (data : List Event) (lo hi : ℤ) : List Event :=
  data.filter (fun e => decide (lo ≤ e.timestamp) && decide (e.timestamp < hi))

/-- `obs_data` of `build_training_table`. -/
def obsData (cfg : TemporalConfig) (data : List Event) (cutoff : ℤ) : List Event :=
  eventsInWindow data (observationStart cfg cutoff) (observationEnd cfg cutoff)

/-- `label_data` of `build_training_table`. -/
def labelData (cfg : TemporalConfig) (data : List Event) (cutoff : ℤ) : List Event :=
  eventsInWindow data (labelStart cfg cutoff) (labelEnd cfg cutoff)

/-- `pandas.Series.unique`: distinct values in first-occurrence order. -/
def pdUnique (l : List String) : List String :=
  l.foldl (fun acc x => if x ∈ acc then acc else acc ++ [x]) []

/-- The fixed 29-field record produced by `_extract_customer_features`
(keys in insertion order of the Python dict). -/
structure FeatureRecord where
  recency_days : ℤ
  frequency : ℕ
  monetary : ℚ
  avg_order_value : ℚ
  max_order_value : ℚ
  total_events : ℕ
  view_count : ℕ
  cart_add_count : ℕ
  refund_count : ℕ
  support_ticket_count : ℕ
  wishlist_add_count : ℕ
  cart_remove_count : ℕ
  wishlist_remove_count : ℕ
  cart_update_count : ℕ
  view_to_cart_rate : ℚ
  cart_to_purchase_rate : ℚ
  overall_conversion_rate : ℚ
  wishlist_to_purchase_rate : ℚ
  cart_abandon_rate : ℚ
  wishlist_abandon_rate : ℚ
  cart_engagement_ratio : ℚ
  category_diversity : ℕ
  dominant_category_ratio : ℚ
  days_active : ℕ
  activity_intensity : ℚ
  activity_trend : ℤ
  purchase_trend : ℤ
  refund_rate : ℚ
  support_intensity : ℚ
  deriving DecidableEq, Repr

/-- `_get_default_features`: the record for customers with no data. -/
def getDefaultFeatures (cfg : TemporalConfig) : FeatureRecord where
  recency_days := cfg.observation_days
  frequency := 0
  monetary := 0
  avg_order_value := 0
  max_order_value := 0
  total_events := 0
  view_count := 0
  cart_add_count := 0
  refund_count := 0
  support_ticket_count := 0
  wishlist_add_count := 0
  cart_remove_count := 0
  wishlist_remove_count := 0
  cart_update_count := 0
  view_to_cart_rate := 0
  cart_to_purchase_rate := 0
  overall_conversion_rate := 0
  wishlist_to_purchase_rate := 0
  cart_abandon_rate := 0
  wishlist_abandon_rate := 0
  cart_engagement_ratio := 0
  category_diversity := 0
  dominant_category_ratio := 0
  days_active := 0
  activity_intensity := 0
  activity_trend := 0
  purchase_trend := 0
  refund_rate := 0
  support_intensity := 0

/-- Events of a given type (`customer_data[customer_data['event_type'] == t]`). -/
def ofType (customer_data : List Event) (t : EventType) : List Event :=
  customer_data.filter (fun e => decide (e.event_type = t))

/-- `_extract_customer_features(customer_data, start_date, end_date)`.

Direct translation of the Python body; every `if len(...) > 0 ... else ...`
of the source appears as the corresponding `if 0 < ...length then ... else`.
`mid_date = start_date + timedelta(days=observation_days // 2)` uses
`Int.fdiv` for Python floor division. -/
def extractCustomerFeatures (cfg : TemporalConfig) (customer_data : List Event)
    (start_date end_date : ℤ) : FeatureRecord :=
  if customer_data.length = 0 then getDefaultFeatures cfg else
  let purchases := ofType customer_data .purchase
  let views := ofType customer_data .view
  let cart_adds := ofType customer_data .add_to_cart
  let refunds := ofType customer_data .refund
  let support := ofType customer_data .support_ticket
  let wishlist_adds := ofType customer_data .added_to_wishlist
  let cart_removes := ofType customer_data .removed_from_cart
  let wishlist_removes := ofType customer_data .removed_from_wishlist
  let cart_updates := ofType customer_data .cart_quantity_updated
  let unique_categories := (customer_data.map (fun e => e.product_category)).dedup.length
  let top_category_count :=
    (((customer_data.map (fun e => e.product_category)).dedup).map
      (fun c => (customer_data.filter (fun e => decide (e.product_category = c))).length)).foldr
        max 0
  let active_dates := (customer_data.map (fun e => e.timestamp)).dedup.length
  let mid_date := start_date + Int.fdiv cfg.observation_days 2
  let first_half := customer_data.filter (fun e => decide (e.timestamp < mid_date))
  let second_half := customer_data.filter (fun e => decide (mid_date ≤ e.timestamp))
  { recency_days :=
      if 0 < purchases.length then
        end_date - ((purchases.map (fun e => e.timestamp)).foldr max 0)
      else cfg.observation_days
    frequency := if 0 < purchases.length then purchases.length else 0
    monetary := if 0 < purchases.length then (purchases.map (fun e => e.value)).sum else 0
    avg_order_value :=
      if 0 < purchases.length then
        (purchases.map (fun e => e.value)).sum / (purchases.length : ℚ)
      else 0
    max_order_value :=
      if 0 < purchases.length then (purchases.map (fun e => e.value)).foldr max 0 else 0
    total_events := customer_data.length
    view_count := views.length
    cart_add_count := cart_adds.length
    refund_count := refunds.length
    support_ticket_count := support.length
    wishlist_add_count := wishlist_adds.length
    cart_remove_count := cart_removes.length
    wishlist_remove_count := wishlist_removes.length
    cart_update_count := cart_updates.length
    view_to_cart_rate :=
      if 0 < views.length then (cart_adds.length : ℚ) / (views.length : ℚ) else 0
    cart_to_purchase_rate :=
      if 0 < cart_adds.length then (purchases.length : ℚ) / (cart_adds.length : ℚ) else 0
    overall_conversion_rate :=
      if 0 < views.length then (purchases.length : ℚ) / (views.length : ℚ) else 0
    wishlist_to_purchase_rate :=
      if 0 < wishlist_adds.length then
        (purchases.length : ℚ) / (wishlist_adds.length : ℚ)
      else 0
    cart_abandon_rate :=
      if 0 < cart_adds.length then (cart_removes.length : ℚ) / (cart_adds.length : ℚ) else 0
    wishlist_abandon_rate :=
      if 0 < wishlist_adds.length then
        (wishlist_removes.length : ℚ) / (wishlist_adds.length : ℚ)
      else 0
    cart_engagement_ratio :=
      if 0 < cart_adds.length then (cart_updates.length : ℚ) / (cart_adds.length : ℚ) else 0
    category_diversity := unique_categories
    dominant_category_ratio :=
      if 0 < customer_data.length then
        (top_category_count : ℚ) / (customer_data.length : ℚ)
      else 0
    days_active := if 0 < customer_data.length then active_dates else 0
    activity_intensity :=
      if 0 < customer_data.length then
        (customer_data.length : ℚ) / ((max active_dates 1 : ℕ) : ℚ)
      else 0
    activity_trend :=
      if 0 < customer_data.length then
        (second_half.length : ℤ) - (first_half.length : ℤ)
      else 0
    purchase_trend :=
      if 0 < customer_data.length then
        ((ofType second_half .purchase).length : ℤ) - ((ofType first_half .purchase).length : ℤ)
      else 0
    refund_rate := (refunds.length : ℚ) / ((max purchases.length 1 : ℕ) : ℚ)
    support_intensity := (support.length : ℚ) / ((max customer_data.length 1 : ℕ) : ℚ) }

/-- `customers = obs_data['customer_id'].unique()` in `build_training_table`. -/
def buildCustomers (cfg : TemporalConfig) (data : List Event) (cutoff : ℤ) : List String :=
  pdUnique ((obsData cfg data cutoff).map (fun e => e.customer_id))

/-- The per-customer churn label of `build_training_table`:
`0 if x in active_customers else 1` where `active_customers` is the set of
customer ids occurring in the label window. -/
def churnLabel (cfg : TemporalConfig) (data : List Event) (cutoff : ℤ)
    (cid : String) : ℕ :=
  if cid ∈ (labelData cfg data cutoff).map (fun e => e.customer_id) then 0 else 1

/-- The feature rows of `build_training_table` (one per unique observation
customer, in first-occurrence order; the `customer_id` column is dropped
before returning, as in the source). -/
def buildFeatures (cfg : TemporalConfig) (data : List Event) (cutoff : ℤ) :
    List FeatureRecord :=
  (buildCustomers cfg data cutoff).map (fun cid =>
    extractCustomerFeatures cfg
      ((obsData cfg data cutoff).filter (fun e => decide (e.customer_id = cid)))
      (observationStart cfg cutoff) (observationEnd cfg cutoff))

/-- The labels series of `build_training_table`, aligned with `buildFeatures`. -/
def buildLabels (cfg : TemporalConfig) (data : List Event) (cutoff : ℤ) : List ℕ :=
  (buildCustomers cfg data cutoff).map (churnLabel cfg data cutoff)

/-- `build_training_table` returns the `(features, labels)` pair. -/
def buildTrainingTable (cfg : TemporalConfig) (data : List Event) (cutoff : ℤ) :
    List FeatureRecord × List ℕ :=
  (buildFeatures cfg data cutoff, buildLabels cfg data cutoff)

/-- The cutoff enumeration loop of `create_multiple_snapshots`:
`current_date = start_date; while current_date <= end_date: ...;
current_date += timedelta(days=step_days)`.  The loop only terminates for a
positive step, hence the `0 < step` guard (the Python loop would not
terminate otherwise). -/
def planCutoffs (start_date end_date step : ℤ) : List ℤ :=
  if h : 0 < step ∧ start_date ≤ end_date then
    start_date :: planCutoffs (start_date + step) end_date step
  else []
termination_by (end_date + 1 - start_date).toNat
decreasing_by
  obtain ⟨h1, h2⟩ := h
  omega

/-- `create_multiple_snapshots(data, start_date, end_date)`: runs
`build_training_table` at each planned cutoff, keeps only cutoffs with a
non-empty feature table (tagging each kept row with its `snapshot_date`),
raises `ValueError("No valid snapshots generated")` when nothing was kept,
and otherwise concatenates all kept batches in order. -/
def createMultipleSnapshots (cfg : TemporalConfig) (data : List Event)
    (start_date end_date : ℤ) :
    Except String (List (ℤ × FeatureRecord) × List ℕ) :=
  let batches := (planCutoffs start_date end_date cfg.step_days).filterMap
    (fun cut =>
      let fl := buildTrainingTable cfg data cut
      if fl.1.length ≠ 0 then some (fl.1.map (fun r => (cut, r)), fl.2) else none)
  if batches.length = 0 then
    .error ("No valid snapshots generated")
  else
    .ok ((batches.map Prod.fst).flatten, (batches.map Prod.snd).flatten)

/-! ### Inference-time alignment and batch prediction (`app/ml.py`) -/

/-- A pandas `DataFrame` in column-major view: association list from column
name to the column's values, together with a fixed row count shared by all
columns. -/
abbrev ColFrame : Type := List (String × List ℚ)

/-- The `for col in names: if col not in df.columns: df[col] = 0` loop of
`_align_columns`: append an all-zero column for every missing name. -/
def addMissingColumns (names : List String) (df : ColFrame) (nrows : ℕ) : ColFrame :=
  names.foldl
    (fun d c => if (List.lookup c d).isSome then d else d ++ [(c, List.replicate nrows 0)])
    df

/-- The `df = df[names]` reindexing step: select the named columns, in order. -/
def reindexColumns (names : List String) (df : ColFrame) : ColFrame :=
  names.map (fun c => (c, (List.lookup c df).getD []))

/-- The names-available branch of `_align_columns` (add missing columns with
zeros, then keep exactly `names`, dropping extras). -/
def alignColumns (names : List String) (df : ColFrame) (nrows : ℕ) : ColFrame :=
  reindexColumns names (addMissingColumns names df nrows)

/-- Python truthiness of an optional list (`None` and `[]` are falsy). -/
def truthyList (o : Option (List String)) : Bool :=
  match o with
  | some l => !l.isEmpty
  | none => false

/-- The feature-name resolution of `_align_columns`:
`if order_json and order_model and len(order_json) != len(order_model):
names = order_model else: names = order_json or order_model`
(Python `or` returns the first operand when truthy, else the second). -/
def resolveNames (order_json order_model : Option (List String)) :
    Option (List String) :=
  if truthyList order_json ∧ truthyList order_model ∧
      (order_json.getD []).length ≠ (order_model.getD []).length then
    order_model
  else if truthyList order_json then order_json else order_model

/-- `_safe_div` of `app/processing.py`: `np.where(b == 0, 0.0, a / b)`. -/
def safeDiv (a b : ℚ) : ℚ :=
  if b = 0 then 0 else a / b

/-- One inference instance: a JSON object mapping column names to numbers. -/
abbrev Row : Type := List (String × ℚ)

/-- Column access with the 0 default used by `feature_engineering` for
absent raw columns. -/
def rawCol (row : Row) (c : String) : ℚ :=
  (List.lookup c row).getD 0

/-- `feature_engineering` of `app/processing.py`, per row (the pandas code
is a row-wise map: every output column is computed element-wise from the
input columns of the same row, and the output keeps the input's index).
Returns the 29 engineered features in `FEATURES_29` order. -/
def featureEngineeringRow (row : Row) : Row :=
  let wish_add := rawCol row ("added_to_wishlist")
  let wish_rem := rawCol row ("removed_from_wishlist")
  let cart_add := rawCol row ("added_to_cart")
  let cart_rem := rawCol row ("removed_from_cart")
  let cart_upd := rawCol row ("cart_quantity_updated")
  let sessions := rawCol row ("total_sessions")
  let recency := rawCol row ("days_since_last_activity")
  let monetary := rawCol row ("total_spent_usd")
  let view_count : ℚ := 0
  let refund_count : ℚ := 0
  let support_ticket_count : ℚ := 0
  let days_active := max 1 sessions
  let purchase_count : ℚ := if 0 < monetary then 1 else 0
  let total_events := view_count + cart_add + cart_rem + cart_upd +
    wish_add + wish_rem + purchase_count + refund_count + support_ticket_count
  let avg_order_value := if 0 < purchase_count then monetary / purchase_count else 0
  [(("recency_days"), recency),
   (("frequency"), sessions),
   (("monetary"), monetary),
   (("avg_order_value"), avg_order_value),
   (("max_order_value"), avg_order_value),
   (("total_events"), total_events),
   (("view_count"), view_count),
   (("cart_add_count"), cart_add),
   (("refund_count"), refund_count),
   (("support_ticket_count"), support_ticket_count),
   (("wishlist_add_count"), wish_add),
   (("cart_remove_count"), cart_rem),
   (("wishlist_remove_count"), wish_rem),
   (("cart_update_count"), cart_upd),
   (("view_to_cart_rate"), safeDiv cart_add (max 1 view_count)),
   (("cart_to_purchase_rate"), safeDiv purchase_count (max 1 cart_add)),
   (("overall_conversion_rate"), safeDiv purchase_count (max 1 sessions)),
   (("wishlist_to_purchase_rate"), safeDiv purchase_count (max 1 wish_add)),
   (("cart_abandon_rate"), safeDiv cart_rem (max 1 (cart_add + cart_upd))),
   (("wishlist_abandon_rate"), safeDiv wish_rem (max 1 wish_add)),
   (("cart_engagement_ratio"), safeDiv (cart_add + cart_upd) (max 1 sessions)),
   (("category_diversity"), 0),
   (("dominant_category_ratio"), 0),
   (("days_active"), days_active),
   (("activity_intensity"), safeDiv total_events (max 1 days_active)),
   (("activity_trend"), 0),
   (("purchase_trend"), 0),
   (("refund_rate"), safeDiv refund_count (max 1 purchase_count)),
   (("support_intensity"), safeDiv support_ticket_count (max 1 days_active))]

/-- Pad a value vector with zeros on the right, or truncate, to `n` entries
(the no-names fallback of `_align_columns`). -/
def padTruncate (xs : List ℚ) (n : ℕ) : List ℚ :=
  if xs.length < n then xs ++ List.replicate (n - xs.length) 0 else xs.take n

/-- The trained model as seen by `predict_churn`: an opaque binary
classifier.  `predictRow` is `model.predict` on one row (a binary
classifier's prediction); `probaRow` is `model.predict_proba`'s class-1
column when `predict_proba` exists and succeeds, else `none`;
`featureNames` is `_names_from_model`'s result and `nFeatures` is
`_n_features_from_model`'s. -/
structure Classifier where
  predictRow : List ℚ → Bool
  probaRow : Option (List ℚ → ℚ)
  featureNames : Option (List String)
  nFeatures : Option ℕ

/-- Row-wise view of `_align_columns`: with resolved names, each row becomes
the named values in order (missing names filled with 0, extras dropped);
with no names, the row's value vector is padded/truncated to the model's
expected feature count when known, else passed through. -/
def alignRow (names : Option (List String)) (nFeatures : Option ℕ) (row : Row) :
    List ℚ :=
  match names with
  | some ns => ns.map (fun c => (List.lookup c row).getD 0)
  | none =>
    match nFeatures with
    | some n => padTruncate (row.map (fun p => p.2)) n
    | none => row.map (fun p => p.2)

/-- One output record of `predict_churn`. -/
structure PredRecord where
  index : ℕ
  prediction : ℕ
  probability : Option ℚ
  deriving DecidableEq, Repr

/-- The dynamic argument of `predict_churn`: either a Python list of
instances or some non-list value. -/
inductive PredictInput where
  | notAList
  | ofList (instances : List Row)

/-- `predict_churn(instances)` of `app/ml.py`.

* `load` is the outcome `_load_model()` would have: a classifier, or the
  error it would raise (no artifact found / bad artifact);
* `order_json` is the list `_load_feature_order()` yields from
  `feature_order.json` (or the model bundle), `none` when unavailable;
* non-list or empty input returns `[]` before `_load_model` is ever called;
* otherwise the model is loaded, `feature_engineering` is applied row-wise,
  `_align_columns` aligns the frame, `model.predict` / `model.predict_proba`
  score it, and one `{index, prediction, probability}` record is emitted per
  input row, in row order (`int(preds[i])` maps the binary prediction to
  0/1; `probability` is `float(probas[i][1])` or `None`). -/
def predictChurn (load : Except String Classifier)
    (order_json : Option (List String)) (input : PredictInput) :
    Except String (List PredRecord) :=
  match input with
  | .notAList => .ok []
  | .ofList instances =>
    if instances.length = 0 then .ok []
    else
      match load with
      | .error msg => .error msg
      | .ok model =>
        let df := instances.map featureEngineeringRow
        let names := resolveNames order_json model.featureNames
        let X := df.map (alignRow names model.nFeatures)
        let preds := X.map model.predictRow
        let probas := model.probaRow.map (fun f => X.map f)
        .ok ((List.range df.length).map (fun i =>
          { index := i
            prediction := if preds.getD i false then 1 else 0
            probability := probas.map (fun ps => ps.getD i 0) }))

/-! ### Concrete inputs used by witnesses and counterexamples -/

/-- The default `TemporalConfig()` (90/10/45/14). -/
def defaultCfg : TemporalConfig := ⟨90, 10, 45, 14⟩

/-- Synthetic event log for the labeling scenario: customers A and B both
active in the observation window of cutoff 100; only A has an event in the
label window `[110, 155)`. -/
def synthLog : List Event :=
  [⟨("A"), .view, 50, 0, ("c")⟩,
   ⟨("B"), .view, 60, 0, ("c")⟩,
   ⟨("A"), .purchase, 120, 10, ("c")⟩]

/-- Concrete slice for the trend witness: three events of one customer
inside the observation window `[10, 100)` whose midpoint is 55. -/
def trendSlice : List Event :=
  [⟨("T"), .view, 50, 0, ("c")⟩,
   ⟨("T"), .purchase, 60, 5, ("c")⟩,
   ⟨("T"), .view, 80, 0, ("c")⟩]

/-- A slice holding a single refund and no purchase (the refund-rate
counterexample input). -/
def refundOnlySlice : List Event :=
  [⟨("R"), .refund, 50, 5, ("c")⟩]

/-- A three-row inference batch (arbitrary raw signals). -/
def threeRows : List Row :=
  [[(("total_sessions"), 1)], [], [(("total_spent_usd"), 5)]]

/-- A concrete classifier: always predicts churn with probability 1/2 and
exposes neither feature names nor an expected feature count. -/
def constClassifier : Classifier :=
  ⟨fun _ => true, some (fun _ => (1 : ℚ) / 2), none, none⟩

/-! ### Helper lemmas -/

/-- One-step unfolding of the planner loop. -/
theorem planCutoffs_unfold (start_date end_date step : ℤ) :
    planCutoffs start_date end_date step =
      if 0 < step ∧ start_date ≤ end_date then
        start_date :: planCutoffs (start_date + step) end_date step
      else [] := by
  rw [planCutoffs.eq_def]
  split <;> rfl

/-! ### Claim C1 -/

/-- Claim C1: for every cutoff and every `TemporalConfig` with
`gap_days ≥ 0`, the boundaries computed by `build_training_table` satisfy
`observation_end ≤ label_start`; moreover the two half-open timestamp
ranges are disjoint, and consequently no event of the raw data is selected
by both the observation filter and the label filter of the same cutoff. -/
theorem obs_label_windows_disjoint (cfg : TemporalConfig) (cutoff : ℤ)
    (hgap : 0 ≤ cfg.gap_days) :
    observationEnd cfg cutoff ≤ labelStart cfg cutoff ∧
    (∀ t : ℤ,
      ¬((observationStart cfg cutoff ≤ t ∧ t < observationEnd cfg cutoff) ∧
        (labelStart cfg cutoff ≤ t ∧ t < labelEnd cfg cutoff))) ∧
    (∀ (data : List Event) (e : Event),
      e ∈ obsData cfg data cutoff → e ∉ labelData cfg data cutoff) := by
  refine ⟨?_, ?_, ?_⟩
  · unfold observationEnd labelStart
    omega
  · intro t
    unfold observationStart observationEnd labelStart labelEnd
    omega
  · intro data e he hle
    unfold obsData eventsInWindow observationStart observationEnd at he
    unfold labelData eventsInWindow labelStart labelEnd at hle
    simp only [List.mem_filter, Bool.and_eq_true, decide_eq_true_eq] at he hle
    omega

/-- Witness for C1 at the default configuration and cutoff 100. -/
theorem obs_label_windows_disjoint_witness :
    (0 ≤ defaultCfg.gap_days) ∧
    (observationEnd defaultCfg 100 ≤ labelStart defaultCfg 100 ∧
     (∀ t : ℤ,
       ¬((observationStart defaultCfg 100 ≤ t ∧ t < observationEnd defaultCfg 100) ∧
         (labelStart defaultCfg 100 ≤ t ∧ t < labelEnd defaultCfg 100))) ∧
     (∀ (data : List Event) (e : Event),
       e ∈ obsData defaultCfg data 100 → e ∉ labelData defaultCfg data 100)) :=
  ⟨by decide, obs_label_windows_disjoint defaultCfg 100 (by decide)⟩

/-! ### Claim C5 -/

/-- Claim C5: on an empty customer slice, feature extraction returns exactly
the documented default record: `recency_days` equals the configured
`observation_days` and every other feature is zero; it never fails (it is a
total function whose empty-slice branch is the default record). -/
theorem extract_empty_slice_default (cfg : TemporalConfig) (ws we : ℤ) :
    extractCustomerFeatures cfg [] ws we = getDefaultFeatures cfg ∧
    (extractCustomerFeatures cfg [] ws we).recency_days = cfg.observation_days ∧
    (extractCustomerFeatures cfg [] ws we).frequency = 0 ∧
    (extractCustomerFeatures cfg [] ws we).monetary = 0 ∧
    (extractCustomerFeatures cfg [] ws we).avg_order_value = 0 ∧
    (extractCustomerFeatures cfg [] ws we).max_order_value = 0 ∧
    (extractCustomerFeatures cfg [] ws we).total_events = 0 ∧
    (extractCustomerFeatures cfg [] ws we).view_count = 0 ∧
    (extractCustomerFeatures cfg [] ws we).cart_add_count = 0 ∧
    (extractCustomerFeatures cfg [] ws we).refund_count = 0 ∧
    (extractCustomerFeatures cfg [] ws we).support_ticket_count = 0 ∧
    (extractCustomerFeatures cfg [] ws we).wishlist_add_count = 0 ∧
    (extractCustomerFeatures cfg [] ws we).cart_remove_count = 0 ∧
    (extractCustomerFeatures cfg [] ws we).wishlist_remove_count = 0 ∧
    (extractCustomerFeatures cfg [] ws we).cart_update_count = 0 ∧
    (extractCustomerFeatures cfg [] ws we).view_to_cart_rate = 0 ∧
    (extractCustomerFeatures cfg [] ws we).cart_to_purchase_rate = 0 ∧
    (extractCustomerFeatures cfg [] ws we).overall_conversion_rate = 0 ∧
    (extractCustomerFeatures cfg [] ws we).wishlist_to_purchase_rate = 0 ∧
    (extractCustomerFeatures cfg [] ws we).cart_abandon_rate = 0 ∧
    (extractCustomerFeatures cfg [] ws we).wishlist_abandon_rate = 0 ∧
    (extractCustomerFeatures cfg [] ws we).cart_engagement_ratio = 0 ∧
    (extractCustomerFeatures cfg [] ws we).category_diversity = 0 ∧
    (extractCustomerFeatures cfg [] ws we).dominant_category_ratio = 0 ∧
    (extractCustomerFeatures cfg [] ws we).days_active = 0 ∧
    (extractCustomerFeatures cfg [] ws we).activity_intensity = 0 ∧
    (extractCustomerFeatures cfg [] ws we).activity_trend = 0 ∧
    (extractCustomerFeatures cfg [] ws we).purchase_trend = 0 ∧
    (extractCustomerFeatures cfg [] ws we).refund_rate = 0 ∧
    (extractCustomerFeatures cfg [] ws we).support_intensity = 0 := by
  repeat refine ⟨rfl, ?_⟩
  rfl

/-! ### Claim C2 -/

/-- Claim C2: in the snapshot builder, a customer of the observation window
is labeled 0 (active) iff some event of the raw data with that customer id
falls in the label window `[label_start, label_end)`, and 1 (churned)
otherwise; the labels series pairs each unique observation customer with
that label; and on the synthetic log, A (label-window event) gets 0 while B
(no label-window event) gets 1. -/
theorem churn_label_active_iff_label_event :
    (∀ (cfg : TemporalConfig) (data : List Event) (cutoff : ℤ) (cid : String),
      cid ∈ buildCustomers cfg data cutoff →
        ((churnLabel cfg data cutoff cid = 0 ↔
            ∃ e ∈ data, e.customer_id = cid ∧
              labelStart cfg cutoff ≤ e.timestamp ∧ e.timestamp < labelEnd cfg cutoff) ∧
         (churnLabel cfg data cutoff cid = 1 ↔
            ¬∃ e ∈ data, e.customer_id = cid ∧
              labelStart cfg cutoff ≤ e.timestamp ∧ e.timestamp < labelEnd cfg cutoff))) ∧
    (∀ (cfg : TemporalConfig) (data : List Event) (cutoff : ℤ),
      buildLabels cfg data cutoff =
        (buildCustomers cfg data cutoff).map (churnLabel cfg data cutoff)) ∧
    (buildCustomers defaultCfg synthLog 100 = [("A"), ("B")] ∧
     buildLabels defaultCfg synthLog 100 = [0, 1]) := by
  refine ⟨?_, fun _ _ _ => rfl, by decide, by decide⟩
  intro cfg data cutoff cid _
  unfold churnLabel labelData eventsInWindow
  constructor
  · split <;> rename_i hmem
    · simp only [List.mem_map, List.mem_filter, Bool.and_eq_true,
        decide_eq_true_eq] at hmem
      obtain ⟨e, ⟨hed, hlo, hhi⟩, hid⟩ := hmem
      exact ⟨fun _ => ⟨e, hed, hid, hlo, hhi⟩, fun _ => rfl⟩
    · simp only [List.mem_map, List.mem_filter, Bool.and_eq_true,
        decide_eq_true_eq] at hmem
      constructor
      · intro h
        exact absurd h one_ne_zero
      · rintro ⟨e, hed, hid, hlo, hhi⟩
        exact absurd ⟨e, ⟨hed, hlo, hhi⟩, hid⟩ hmem
  · split <;> rename_i hmem
    · simp only [List.mem_map, List.mem_filter, Bool.and_eq_true,
        decide_eq_true_eq] at hmem
      obtain ⟨e, ⟨hed, hlo, hhi⟩, hid⟩ := hmem
      constructor
      · intro h
        exact absurd h.symm one_ne_zero
      · intro h
        exact absurd ⟨e, hed, hid, hlo, hhi⟩ h
    · simp only [List.mem_map, List.mem_filter, Bool.and_eq_true,
        decide_eq_true_eq] at hmem
      refine ⟨fun _ => ?_, fun _ => rfl⟩
      rintro ⟨e, hed, hid, hlo, hhi⟩
      exact absurd ⟨e, ⟨hed, hlo, hhi⟩, hid⟩ hmem

/-- Witness for C2: the label equivalence instantiated for customer A of the
synthetic log (hypothesis: A is an observation-window customer). -/
theorem churn_label_active_iff_label_event_witness :
    ("A") ∈ buildCustomers defaultCfg synthLog 100 ∧
    ((churnLabel defaultCfg synthLog 100 ("A") = 0 ↔
        ∃ e ∈ synthLog, e.customer_id = ("A") ∧
          labelStart defaultCfg 100 ≤ e.timestamp ∧
          e.timestamp < labelEnd defaultCfg 100) ∧
     (churnLabel defaultCfg synthLog 100 ("A") = 1 ↔
        ¬∃ e ∈ synthLog, e.customer_id = ("A") ∧
          labelStart defaultCfg 100 ≤ e.timestamp ∧
          e.timestamp < labelEnd defaultCfg 100)) :=
  ⟨by decide,
   churn_label_active_iff_label_event.1 defaultCfg synthLog 100 ("A") (by decide)⟩

/-! ### Claim C3 -/

/-- The `activity_trend` field, unfolded: second-half count minus
first-half count at the code's midpoint, for any slice (the empty slice
gives `0 - 0`). -/
theorem extract_activity_trend (cfg : TemporalConfig) (cd : List Event) (ws we : ℤ) :
    (extractCustomerFeatures cfg cd ws we).activity_trend =
      ((cd.filter (fun e =>
          decide (ws + Int.fdiv cfg.observation_days 2 ≤ e.timestamp))).length : ℤ)
      - ((cd.filter (fun e =>
          decide (e.timestamp < ws + Int.fdiv cfg.observation_days 2))).length : ℤ) := by
  cases cd with
  | nil => simp [extractCustomerFeatures, getDefaultFeatures]
  | cons a l => simp [extractCustomerFeatures]

/-- The `purchase_trend` field, unfolded. -/
theorem extract_purchase_trend (cfg : TemporalConfig) (cd : List Event) (ws we : ℤ) :
    (extractCustomerFeatures cfg cd ws we).purchase_trend =
      (((cd.filter (fun e =>
          decide (ws + Int.fdiv cfg.observation_days 2 ≤ e.timestamp))).filter
            (fun e => decide (e.event_type = EventType.purchase))).length : ℤ)
      - (((cd.filter (fun e =>
          decide (e.timestamp < ws + Int.fdiv cfg.observation_days 2))).filter
            (fun e => decide (e.event_type = EventType.purchase))).length : ℤ) := by
  cases cd with
  | nil => simp [extractCustomerFeatures, getDefaultFeatures]
  | cons a l => simp [extractCustomerFeatures, ofType]

/-- Claim C3: feature extraction splits the observation window at
`window_start + (window_end - window_start)/2` (the code's
`start_date + observation_days // 2` agrees with this midpoint whenever the
slice's window spans `observation_days`, as in every call the pipeline
makes), and `activity_trend` / `purchase_trend` are the second-half-window
counts minus the first-half-window counts of events resp. purchases. -/
theorem trend_features_split_at_midpoint (cfg : TemporalConfig) (cd : List Event)
    (ws we : ℤ) (hobs : 0 ≤ cfg.observation_days)
    (hwe : we = ws + cfg.observation_days)
    (hin : ∀ e ∈ cd, ws ≤ e.timestamp ∧ e.timestamp < we) :
    ws + Int.fdiv cfg.observation_days 2 = ws + (we - ws) / 2 ∧
    (extractCustomerFeatures cfg cd ws we).activity_trend =
      ((cd.filter (fun e => decide (ws + (we - ws) / 2 ≤ e.timestamp) &&
          decide (e.timestamp < we))).length : ℤ)
      - ((cd.filter (fun e => decide (ws ≤ e.timestamp) &&
          decide (e.timestamp < ws + (we - ws) / 2))).length : ℤ) ∧
    (extractCustomerFeatures cfg cd ws we).purchase_trend =
      ((cd.filter (fun e => decide (e.event_type = EventType.purchase) &&
          (decide (ws + (we - ws) / 2 ≤ e.timestamp) &&
          decide (e.timestamp < we)))).length : ℤ)
      - ((cd.filter (fun e => decide (e.event_type = EventType.purchase) &&
          (decide (ws ≤ e.timestamp) &&
          decide (e.timestamp < ws + (we - ws) / 2)))).length : ℤ) := by
  have hdiv : Int.fdiv cfg.observation_days 2 = (we - ws) / 2 := by
    rw [hwe, add_sub_cancel_left]
    exact Int.fdiv_eq_ediv cfg.observation_days (by norm_num)
  have hmid : ws + Int.fdiv cfg.observation_days 2 = ws + (we - ws) / 2 := by
    rw [hdiv]
  have hsec : cd.filter (fun e =>
        decide (ws + Int.fdiv cfg.observation_days 2 ≤ e.timestamp)) =
      cd.filter (fun e => decide (ws + (we - ws) / 2 ≤ e.timestamp) &&
        decide (e.timestamp < we)) := by
    refine List.filter_congr fun e he => ?_
    have h2 := (hin e he).2
    rw [hmid]
    simp [h2]
  have hfst : cd.filter (fun e =>
        decide (e.timestamp < ws + Int.fdiv cfg.observation_days 2)) =
      cd.filter (fun e => decide (ws ≤ e.timestamp) &&
        decide (e.timestamp < ws + (we - ws) / 2)) := by
    refine List.filter_congr fun e he => ?_
    have h1 := (hin e he).1
    rw [hmid]
    simp [h1]
  refine ⟨hmid, ?_, ?_⟩
  · rw [extract_activity_trend, hsec, hfst]
  · rw [extract_purchase_trend, hsec, hfst, List.filter_filter, List.filter_filter]

/-- Witness for C3 on a concrete three-event slice in the window `[10, 100)`
(midpoint 55): one event and no purchase before the midpoint, two events
and one purchase after it, so both trends are 1. -/
theorem trend_features_split_at_midpoint_witness :
    (0 ≤ defaultCfg.observation_days ∧ (100 : ℤ) = 10 + defaultCfg.observation_days ∧
      (∀ e ∈ trendSlice, (10 : ℤ) ≤ e.timestamp ∧ e.timestamp < (100 : ℤ))) ∧
    ((10 : ℤ) + Int.fdiv defaultCfg.observation_days 2 = 10 + ((100 : ℤ) - 10) / 2 ∧
     (extractCustomerFeatures defaultCfg trendSlice 10 100).activity_trend =
       ((trendSlice.filter (fun e => decide ((10 : ℤ) + ((100 : ℤ) - 10) / 2 ≤ e.timestamp) &&
           decide (e.timestamp < (100 : ℤ)))).length : ℤ)
       - ((trendSlice.filter (fun e => decide ((10 : ℤ) ≤ e.timestamp) &&
           decide (e.timestamp < (10 : ℤ) + ((100 : ℤ) - 10) / 2))).length : ℤ) ∧
     (extractCustomerFeatures defaultCfg trendSlice 10 100).purchase_trend =
       ((trendSlice.filter (fun e => decide (e.event_type = EventType.purchase) &&
           (decide ((10 : ℤ) + ((100 : ℤ) - 10) / 2 ≤ e.timestamp) &&
           decide (e.timestamp < (100 : ℤ))))).length : ℤ)
       - ((trendSlice.filter (fun e => decide (e.event_type = EventType.purchase) &&
           (decide ((10 : ℤ) ≤ e.timestamp) &&
           decide (e.timestamp < (10 : ℤ) + ((100 : ℤ) - 10) / 2)))).length : ℤ)) :=
  ⟨⟨by decide, by decide, by decide⟩,
   trend_features_split_at_midpoint defaultCfg trendSlice 10 100
     (by decide) (by decide) (by decide)⟩

/-! ### Claim C6 (corrected) -/

/-- The `refund_rate` field, unfolded. -/
theorem extract_refund_rate (cfg : TemporalConfig) (cd : List Event) (ws we : ℤ) :
    (extractCustomerFeatures cfg cd ws we).refund_rate =
      if cd.length = 0 then 0 else
        ((ofType cd .refund).length : ℚ) /
          ((max (ofType cd .purchase).length 1 : ℕ) : ℚ) := by
  cases cd with
  | nil => simp [extractCustomerFeatures, getDefaultFeatures]
  | cons a l => simp [extractCustomerFeatures]

/-- Counterexample to C6 as stated: a slice holding one refund event and no
purchase has denominator count `frequency = 0`, yet
`refund_rate = len(refunds) / max(len(purchases), 1) = 1/1 = 1`, not 0. -/
theorem refund_rate_zero_frequency_counterexample :
    (extractCustomerFeatures defaultCfg refundOnlySlice 10 100).frequency = 0 ∧
    (extractCustomerFeatures defaultCfg refundOnlySlice 10 100).refund_rate = 1 := by
  constructor
  · decide
  · rw [extract_refund_rate]
    have h1 : (ofType refundOnlySlice .refund).length = 1 := by decide
    have h2 : (ofType refundOnlySlice .purchase).length = 0 := by decide
    have h3 : refundOnlySlice.length = 1 := by decide
    rw [if_neg (by omega), h1, h2]
    norm_num

/-- Claim C6, amended: every ratio whose code guard is
`if denominator > 0 ... else 0` (view_to_cart, cart_to_purchase,
overall_conversion, wishlist_to_purchase, cart_abandon, wishlist_abandon,
cart_engagement) is 0 whenever its denominator count is 0, and
`support_intensity` is 0 whenever `total_events` is 0; no division by zero
is ever performed because `refund_rate` and `support_intensity` divide by
`max(denominator, 1)` — but for that same reason `refund_rate` equals
`refund_count` (not necessarily 0) when `frequency = 0`. -/
theorem rate_features_zero_denominator (cfg : TemporalConfig) (cd : List Event)
    (ws we : ℤ) :
    ((extractCustomerFeatures cfg cd ws we).view_count = 0 →
      (extractCustomerFeatures cfg cd ws we).view_to_cart_rate = 0 ∧
      (extractCustomerFeatures cfg cd ws we).overall_conversion_rate = 0) ∧
    ((extractCustomerFeatures cfg cd ws we).cart_add_count = 0 →
      (extractCustomerFeatures cfg cd ws we).cart_to_purchase_rate = 0 ∧
      (extractCustomerFeatures cfg cd ws we).cart_abandon_rate = 0 ∧
      (extractCustomerFeatures cfg cd ws we).cart_engagement_ratio = 0) ∧
    ((extractCustomerFeatures cfg cd ws we).wishlist_add_count = 0 →
      (extractCustomerFeatures cfg cd ws we).wishlist_to_purchase_rate = 0 ∧
      (extractCustomerFeatures cfg cd ws we).wishlist_abandon_rate = 0) ∧
    ((extractCustomerFeatures cfg cd ws we).total_events = 0 →
      (extractCustomerFeatures cfg cd ws we).support_intensity = 0) ∧
    ((extractCustomerFeatures cfg cd ws we).refund_rate =
      ((extractCustomerFeatures cfg cd ws we).refund_count : ℚ) /
        ((max (extractCustomerFeatures cfg cd ws we).frequency 1 : ℕ) : ℚ)) ∧
    ((extractCustomerFeatures cfg cd ws we).frequency = 0 →
      (extractCustomerFeatures cfg cd ws we).refund_rate =
        ((extractCustomerFeatures cfg cd ws we).refund_count : ℚ)) := by
  cases cd with
  | nil =>
    refine ⟨?_, ?_, ?_, ?_, ?_, ?_⟩ <;>
      simp [extractCustomerFeatures, getDefaultFeatures]
  | cons a l =>
    have hne : ((a :: l : List Event).length = 0) = False := by simp
    refine ⟨?_, ?_, ?_, ?_, ?_, ?_⟩
    · intro h
      simp only [extractCustomerFeatures, hne] at h ⊢
      simp only [if_false] at h ⊢
      rw [h] at *
      constructor <;> simp
    · intro h
      simp only [extractCustomerFeatures, hne, if_false] at h ⊢
      rw [h]
      refine ⟨by simp, by simp, by simp⟩
    · intro h
      simp only [extractCustomerFeatures, hne, if_false] at h ⊢
      rw [h]
      constructor <;> simp
    · intro h
      simp only [extractCustomerFeatures, hne, if_false] at h
    · simp only [extractCustomerFeatures, hne, if_false]
      rcases Nat.eq_zero_or_pos (ofType (a :: l) .purchase).length with hp | hp
      · rw [hp]
        simp
      · rw [if_pos hp, Nat.max_eq_left hp]
    · intro h
      simp only [extractCustomerFeatures, hne, if_false] at h ⊢
      have hp : (ofType (a :: l) .purchase).length = 0 := by
        by_cases hc : 0 < (ofType (a :: l) .purchase).length
        · rw [if_pos hc] at h
          omega
        · omega
      rw [hp]
      simp

/-- Witness for the amended C6 on the refund-only slice: the view, cart and
wishlist counts are 0 and the corresponding rates are all 0. -/
theorem rate_features_zero_denominator_witness :
    (extractCustomerFeatures defaultCfg refundOnlySlice 10 100).view_count = 0 ∧
    (extractCustomerFeatures defaultCfg refundOnlySlice 10 100).view_to_cart_rate = 0 ∧
    (extractCustomerFeatures defaultCfg refundOnlySlice 10 100).overall_conversion_rate = 0 :=
  ⟨by decide,
   (rate_features_zero_denominator defaultCfg refundOnlySlice 10 100).1 (by decide)⟩

/-! ### Claim C4 -/

/-- Looking a name up after the add-missing-columns loop: present columns
keep their values, names absent from `df` got the zero column. -/
theorem lookup_addMissingColumns (names : List String) (df : ColFrame) (n : ℕ)
    (c : String) :
    List.lookup c (addMissingColumns names df n) =
      (List.lookup c df).or
        (if c ∈ names then some (List.replicate n 0) else none) := by
  induction names generalizing df with
  | nil =>
    simp [addMissingColumns]
  | cons nm names ih =>
    show List.lookup c (addMissingColumns names
        (if (List.lookup nm df).isSome then df
         else df ++ [(nm, List.replicate n 0)]) n) = _
    rw [ih]
    by_cases hnm : (List.lookup nm df).isSome
    · rw [if_pos hnm]
      cases hdf : List.lookup c df with
      | some v => simp [Option.or]
      | none =>
        by_cases hc : c = nm
        · subst hc
          rw [hdf] at hnm
          simp at hnm
        · simp [Option.or, List.mem_cons, hc]
    · rw [if_neg hnm]
      rw [List.lookup_append]
      cases hdf : List.lookup c df with
      | some v => simp [Option.or]
      | none =>
        by_cases hc : c = nm
        · subst hc
          simp [Option.or, List.mem_cons]
        · have hb : (c == nm) = false := beq_false_of_ne hc
          have hl : List.lookup c [(nm, List.replicate n (0 : ℚ))] = none := by
            simp [List.lookup_cons, hb]
          rw [hl]
          simp [Option.or, List.mem_cons, hc]

/-- Claim C4: for every feature-name list and every column frame, alignment
returns a frame whose column names are exactly the given names in the given
order; each named column keeps its input values when present and is the
all-zero column when absent; columns not named are dropped (every output
column is named); and the function is total — no error in either case. -/
theorem align_columns_spec (names : List String) (df : ColFrame) (n : ℕ) :
    ((alignColumns names df n).map Prod.fst = names) ∧
    (∀ c col, (c, col) ∈ alignColumns names df n →
      c ∈ names ∧ col = (List.lookup c df).getD (List.replicate n 0)) := by
  constructor
  · unfold alignColumns reindexColumns
    rw [List.map_map]
    exact List.map_id'' (fun x => rfl) names
  · intro c col hmem
    unfold alignColumns reindexColumns at hmem
    rw [List.mem_map] at hmem
    obtain ⟨c', hc', heq⟩ := hmem
    have hc : c' = c := congrArg Prod.fst heq
    subst hc
    refine ⟨hc', ?_⟩
    have hcol : col = (List.lookup c' (addMissingColumns names df n)).getD [] :=
      (congrArg Prod.snd heq).symm
    rw [hcol, lookup_addMissingColumns, if_pos hc']
    cases List.lookup c' df with
    | some v => simp [Option.or]
    | none => simp [Option.or]

/-- Witness for C4 on names `[a, b]` and a frame holding `b` and an extra
column `x` over two rows: the missing `a` is zero-filled and kept first, `b`
keeps its values, `x` is dropped. -/
theorem align_columns_spec_witness :
    ((("a"), List.replicate 2 (0 : ℚ)) ∈
        alignColumns [("a"), ("b")] [(("b"), [1, 2]), (("x"), [3, 4])] 2) ∧
    (("a") ∈ [("a"), ("b")] ∧
      List.replicate 2 (0 : ℚ) =
        (List.lookup ("a") [(("b"), [(1 : ℚ), 2]), (("x"), [3, 4])]).getD
          (List.replicate 2 0)) :=
  ⟨by decide,
   (align_columns_spec [("a"), ("b")] [(("b"), [1, 2]), (("x"), [3, 4])] 2).2
     ("a") (List.replicate 2 0) (by decide)⟩

/-! ### Claim C7 -/

/-- Membership in the planner's cutoff list, by strong induction on the
remaining range length. -/
theorem planCutoffs_mem_iff_aux (step : ℤ) (hstep : 0 < step) (end_date : ℤ) :
    ∀ (n : ℕ) (start_date : ℤ), (end_date + 1 - start_date).toNat ≤ n →
      ∀ c : ℤ, (c ∈ planCutoffs start_date end_date step ↔
        ∃ k : ℕ, c = start_date + k * step ∧ c ≤ end_date) := by
  intro n
  induction n with
  | zero =>
    intro s hs c
    rw [planCutoffs_unfold, if_neg (by omega)]
    constructor
    · intro h
      exact absurd h (List.not_mem_nil c)
    · rintro ⟨k, rfl, hle⟩
      have hk : (0 : ℤ) ≤ (k : ℤ) * step :=
        mul_nonneg (Int.natCast_nonneg k) hstep.le
      have hes : end_date < s := by omega
      linarith
  | succ n ih =>
    intro s hs c
    by_cases hse : s ≤ end_date
    · rw [planCutoffs_unfold, if_pos ⟨hstep, hse⟩, List.mem_cons,
        ih (s + step) (by omega) c]
      constructor
      · rintro (rfl | ⟨k, rfl, hle⟩)
        · exact ⟨0, by simp, hse⟩
        · exact ⟨k + 1, by push_cast; ring, hle⟩
      · rintro ⟨k, rfl, hle⟩
        cases k with
        | zero =>
          left
          simp
        | succ k =>
          right
          exact ⟨k, by push_cast; ring, hle⟩
    · rw [planCutoffs_unfold, if_neg (by tauto)]
      constructor
      · intro h
        exact absurd h (List.not_mem_nil c)
      · rintro ⟨k, rfl, hle⟩
        have hk : (0 : ℤ) ≤ (k : ℤ) * step :=
          mul_nonneg (Int.natCast_nonneg k) hstep.le
        linarith

/-- Claim C7: for a positive step the planner loop enumerates exactly the
cutoffs `range_start + k * step_days` (k = 0, 1, 2, ...) not exceeding
`range_end`, and no others; with days numbered from 2024-01-01 = 0 (so
2024-03-01 = 60, 2024 being a leap year), `plan(2024-01-01, 2024-03-01,
step_days=14)` attempts exactly 2024-01-01, 2024-01-15, 2024-01-29,
2024-02-12 and 2024-02-26, i.e. `[0, 14, 28, 42, 56]`. -/
theorem plan_cutoffs_enumeration (start_date end_date step : ℤ) (hstep : 0 < step) :
    (∀ c : ℤ, c ∈ planCutoffs start_date end_date step ↔
      ∃ k : ℕ, c = start_date + k * step ∧ c ≤ end_date) ∧
    planCutoffs 0 60 14 = [0, 14, 28, 42, 56] := by
  constructor
  · exact fun c =>
      planCutoffs_mem_iff_aux step hstep end_date
        (end_date + 1 - start_date).toNat start_date le_rfl c
  · rw [planCutoffs_unfold]
    norm_num
    rw [planCutoffs_unfold]
    norm_num
    rw [planCutoffs_unfold]
    norm_num
    rw [planCutoffs_unfold]
    norm_num
    rw [planCutoffs_unfold]
    norm_num
    rw [planCutoffs_unfold]
    norm_num

/-- Witness for C7: the enumeration equivalence at the concrete plan
`(0, 60, 14)` and cutoff 28. -/
theorem plan_cutoffs_enumeration_witness :
    (0 : ℤ) < 14 ∧
    ((28 : ℤ) ∈ planCutoffs 0 60 14 ↔
      ∃ k : ℕ, (28 : ℤ) = 0 + k * 14 ∧ (28 : ℤ) ≤ 60) :=
  ⟨by decide, (plan_cutoffs_enumeration 0 60 14 (by decide)).1 28⟩

/-! ### Claim C8 -/

/-- The kept-batches list of `create_multiple_snapshots` is empty iff every
planned cutoff yields an empty feature table. -/
theorem snapshots_batches_nil_iff (cfg : TemporalConfig) (data : List Event)
    (start_date end_date : ℤ) :
    ((planCutoffs start_date end_date cfg.step_days).filterMap
      (fun cut =>
        let fl := buildTrainingTable cfg data cut
        if fl.1.length ≠ 0 then some (fl.1.map (fun r => (cut, r)), fl.2)
        else none) = []) ↔
      ∀ cut ∈ planCutoffs start_date end_date cfg.step_days,
        (buildTrainingTable cfg data cut).1 = [] := by
  rw [List.filterMap_eq_nil_iff]
  constructor
  · intro h cut hcut
    have hc := h cut hcut
    by_cases hl : (buildTrainingTable cfg data cut).1.length ≠ 0
    · rw [if_pos hl] at hc
      exact absurd hc (by simp)
    · rw [not_not, List.length_eq_zero] at hl
      exact hl
  · intro h cut hcut
    rw [if_neg]
    rw [not_not, List.length_eq_zero]
    exact h cut hcut

/-- Claim C8: `create_multiple_snapshots` raises (`ValueError`) iff no
planned cutoff produces any customer feature row; when at least one cutoff
yields rows it returns the concatenated dataset instead of raising. -/
theorem create_snapshots_error_iff (cfg : TemporalConfig) (data : List Event)
    (start_date end_date : ℤ) (hstep : 0 < cfg.step_days) :
    ((∃ msg, createMultipleSnapshots cfg data start_date end_date = .error msg) ↔
      ∀ cut ∈ planCutoffs start_date end_date cfg.step_days,
        (buildTrainingTable cfg data cut).1 = []) ∧
    ((∃ cut ∈ planCutoffs start_date end_date cfg.step_days,
        (buildTrainingTable cfg data cut).1 ≠ []) →
      ∃ out, createMultipleSnapshots cfg data start_date end_date = .ok out) := by
  have hiff := snapshots_batches_nil_iff cfg data start_date end_date
  constructor
  · constructor
    · intro ⟨msg, hmsg⟩
      unfold createMultipleSnapshots at hmsg
      rw [← hiff]
      by_cases h0 : ((planCutoffs start_date end_date cfg.step_days).filterMap
          (fun cut =>
            let fl := buildTrainingTable cfg data cut
            if fl.1.length ≠ 0 then some (fl.1.map (fun r => (cut, r)), fl.2)
            else none)).length = 0
      · rw [List.length_eq_zero] at h0
        exact h0
      · rw [if_neg h0] at hmsg
        exact absurd hmsg (by simp)
    · intro hall
      unfold createMultipleSnapshots
      rw [if_pos (by rw [hiff.2 hall]; rfl)]
      exact ⟨_, rfl⟩
  · intro ⟨cut, hcut, hne⟩
    unfold createMultipleSnapshots
    rw [if_neg]
    · exact ⟨_, rfl⟩
    · intro h0
      rw [List.length_eq_zero, hiff] at h0
      exact hne (h0 cut hcut)

/-- Witness for C8: with the synthetic log and the single planned cutoff
100, the builder returns a dataset (the log has observation customers), so
the error condition is equivalent to all-cutoffs-empty as the theorem
states. -/
theorem create_snapshots_error_iff_witness :
    (0 : ℤ) < defaultCfg.step_days ∧
    (((∃ msg, createMultipleSnapshots defaultCfg synthLog 100 100 = .error msg) ↔
        ∀ cut ∈ planCutoffs 100 100 defaultCfg.step_days,
          (buildTrainingTable defaultCfg synthLog cut).1 = []) ∧
     ((∃ cut ∈ planCutoffs 100 100 defaultCfg.step_days,
          (buildTrainingTable defaultCfg synthLog cut).1 ≠ []) →
        ∃ out, createMultipleSnapshots defaultCfg synthLog 100 100 = .ok out)) :=
  ⟨by decide, create_snapshots_error_iff defaultCfg synthLog 100 100 (by decide)⟩

/-! ### Claims C9 and C10 -/

/-- Claim C9: for a successfully loaded binary classifier whose
`predict_proba` outputs are probabilities, `predict_churn` on a non-empty
batch of `n` rows returns exactly `n` records in input order: record `i`
carries `index = i`, a prediction in `\x7b0, 1\x7d`, and a probability that is
either `none` or a rational in `[0, 1]` — regardless of the internal
feature engineering and alignment. -/
theorem predict_churn_batch_shape
    (load : Except String Classifier) (model : Classifier)
    (order_json : Option (List String)) (instances : List Row)
    (hload : load = .ok model) (hne : instances ≠ [])
    (hproba : ∀ f, model.probaRow = some f → ∀ x, 0 ≤ f x ∧ f x ≤ 1) :
    ∃ res, predictChurn load order_json (.ofList instances) = .ok res ∧
      res.length = instances.length ∧
      (∀ i, ∀ hi : i < res.length,
        (res.get ⟨i, hi⟩).index = i ∧
        ((res.get ⟨i, hi⟩).prediction = 0 ∨ (res.get ⟨i, hi⟩).prediction = 1) ∧
        ((res.get ⟨i, hi⟩).probability = none ∨
          ∃ p, (res.get ⟨i, hi⟩).probability = some p ∧ 0 ≤ p ∧ p ≤ 1)) := by
  subst hload
  have hlen : ¬(instances.length = 0) := fun h => hne (List.length_eq_zero.mp h)
  have hequ : predictChurn (.ok model) order_json (.ofList instances) =
      .ok ((List.range (instances.map featureEngineeringRow).length).map (fun i =>
        { index := i
          prediction :=
            if (((instances.map featureEngineeringRow).map
                (alignRow (resolveNames order_json model.featureNames)
                  model.nFeatures)).map model.predictRow).getD i false
            then 1 else 0
          probability :=
            (model.probaRow.map (fun f =>
              ((instances.map featureEngineeringRow).map
                (alignRow (resolveNames order_json model.featureNames)
                  model.nFeatures)).map f)).map
              (fun ps => ps.getD i 0) })) := by
    cases instances with
    | nil => exact absurd rfl hne
    | cons r rs => rfl
  refine ⟨_, hequ, by simp, ?_⟩
  intro i hi
  have hget : ∀ (hj : i < ((List.range (instances.map featureEngineeringRow).length).map
      (fun j =>
        ({ index := j
           prediction :=
             if (((instances.map featureEngineeringRow).map
                 (alignRow (resolveNames order_json model.featureNames)
                   model.nFeatures)).map model.predictRow).getD j false
             then 1 else 0
           probability :=
             (model.probaRow.map (fun f =>
               ((instances.map featureEngineeringRow).map
                 (alignRow (resolveNames order_json model.featureNames)
                   model.nFeatures)).map f)).map
               (fun ps => ps.getD j 0) } : PredRecord))).length),
      ((List.range (instances.map featureEngineeringRow).length).map (fun j =>
        ({ index := j
           prediction :=
             if (((instances.map featureEngineeringRow).map
                 (alignRow (resolveNames order_json model.featureNames)
                   model.nFeatures)).map model.predictRow).getD j false
             then 1 else 0
           probability :=
             (model.probaRow.map (fun f =>
               ((instances.map featureEngineeringRow).map
                 (alignRow (resolveNames order_json model.featureNames)
                   model.nFeatures)).map f)).map
               (fun ps => ps.getD j 0) } : PredRecord))).get ⟨i, hj⟩ =
        { index := i
          prediction :=
            if (((instances.map featureEngineeringRow).map
                (alignRow (resolveNames order_json model.featureNames)
                  model.nFeatures)).map model.predictRow).getD i false
            then 1 else 0
          probability :=
            (model.probaRow.map (fun f =>
              ((instances.map featureEngineeringRow).map
                (alignRow (resolveNames order_json model.featureNames)
                  model.nFeatures)).map f)).map
              (fun ps => ps.getD i 0) } := by
    intro hj
    simp
  rw [hget hi]
  refine ⟨rfl, ?_, ?_⟩
  · cases hb : (((instances.map featureEngineeringRow).map
        (alignRow (resolveNames order_json model.featureNames)
          model.nFeatures)).map model.predictRow).getD i false
    · left
      simp [hb]
    · right
      simp [hb]
  · cases hpr : model.probaRow with
    | none => left; simp [hpr]
    | some f =>
      right
      refine ⟨(((instances.map featureEngineeringRow).map
          (alignRow (resolveNames order_json model.featureNames)
            model.nFeatures)).map f).getD i 0, rfl, ?_⟩
      rw [List.getD_eq_getElem?_getD, List.getElem?_map]
      cases hX : ((instances.map featureEngineeringRow).map
          (alignRow (resolveNames order_json model.featureNames)
            model.nFeatures))[i]? with
      | none => simp
      | some x =>
        simp only [Option.map_some', Option.getD_some]
        exact hproba f hpr x

/-- Witness for C9: the constant classifier on the three-row batch; its
output has three records with index fields `[0, 1, 2]`. -/
theorem predict_churn_batch_shape_witness :
    ((Except.ok constClassifier : Except String Classifier) = .ok constClassifier) ∧
    threeRows ≠ [] ∧
    (∀ f, constClassifier.probaRow = some f → ∀ x, 0 ≤ f x ∧ f x ≤ 1) ∧
    (∃ res, predictChurn (.ok constClassifier) none (.ofList threeRows) = .ok res ∧
      res.length = threeRows.length ∧
      (∀ i, ∀ hi : i < res.length,
        (res.get ⟨i, hi⟩).index = i ∧
        ((res.get ⟨i, hi⟩).prediction = 0 ∨ (res.get ⟨i, hi⟩).prediction = 1) ∧
        ((res.get ⟨i, hi⟩).probability = none ∨
          ∃ p, (res.get ⟨i, hi⟩).probability = some p ∧ 0 ≤ p ∧ p ≤ 1))) ∧
    (predictChurn (.ok constClassifier) none (.ofList threeRows)).map
      (fun rs => rs.map (fun r => r.index)) = .ok [0, 1, 2] :=
  ⟨rfl, by decide,
   by
     intro f hf x
     cases hf
     norm_num,
   predict_churn_batch_shape (.ok constClassifier) constClassifier none threeRows
     rfl (by decide)
     (by
       intro f hf x
       cases hf
       norm_num),
   rfl⟩

/-- Claim C10: on a non-list argument or an empty instance list,
`predict_churn` returns the empty list immediately: no exception, and the
result does not depend on the model-loading outcome (it is `ok []` even
when `_load_model` would raise), since the guard runs before `_load_model`,
alignment or scoring. -/
theorem predict_churn_empty_input (load : Except String Classifier)
    (order_json : Option (List String)) :
    predictChurn load order_json .notAList = .ok [] ∧
    predictChurn load order_json (.ofList []) = .ok [] :=
  ⟨rfl, rfl⟩

end Churn
